import Mathlib

/-
Shallow embedding of the billing-ledger and inventory-reconciliation core of
the BOSSINN property-management dashboard.

The embedded operations are:
  * `ShopPurchaseService.processPurchase` (ShopPurchaseService.ts): validates
    the request, assembles a Firestore write batch (inventory decrements,
    purchase records, checkin update, shop-purchase payment entry) and commits
    it atomically.  A Firestore `WriteBatch` applies either all of its writes
    or none; `batch.update` on a document that does not exist makes the whole
    commit fail, `batch.set` always succeeds.  The batch is modelled by
    `applyBatch`, the commit precondition by `commitOk`.
  * `addToCart` (Shop.tsx): the client-side cart builder, which caps a cart
    line at the inventory snapshot's quantity and snapshots the unit price.
  * `fetchPaymentHistory` (BookedRooms.tsx): the pure list-building core that
    prepends a rent entry and an initial-payment entry (synthesizing the
    latter when the ledger has none) to the stored payment entries.
  * `computePending`: the Pending Amount Calculator (HousePage.tsx, whose
    source file is not part of the sources here), modelled from the
    specification and from the code excerpt quoted in
    HOUSE_PENDING_AMOUNT_FIX.md.

Currency amounts, quantities and timestamps are modelled as `Int`.  String
enumerations (`mode`, `type`, `paymentStatus`) keep the literal strings the
code stores; the specification's abstract names map onto them as
  electronic = "gpay", additional = "advance",
  shop-purchase-offset = "shop-purchase", not-applicable = "shop" / "n/a".
Firestore collections are association lists from document id to document data;
subcollections such as `checkins/{id}/payments` live inside their parent.
-/

/-- A cart line, the `CartItem` type of ShopPurchaseService.ts and Shop.tsx:
inventory document id, denormalized item name, requested quantity and the unit
price snapshotted when the line was added to the cart. -/
structure CartItem where
  inventoryId : String
  itemName : String
  quantity : Int
  unitPrice : Int
deriving DecidableEq

/-- An `inventory` document (fields written by AddInventory.tsx and read by
Shop.tsx).  Display-only fields (minStockLevel, lastRestocked) are omitted. -/
structure InventoryItem where
  itemName : String
  category : String
  quantity : Int
  unitPrice : Int
deriving DecidableEq

/-- A document of the `checkins/{id}/payments` subcollection (the stay's
ledger entries): amount, payment mode, entry kind, timestamp and an optional
free-text description.  The Firestore document id is the collection key and
is not part of the document data. -/
structure PaymentEntry where
  amount : Int
  mode : String
  type : String
  timestamp : Int
  description : Option String
deriving DecidableEq

/-- A `purchases` document as written by `processPurchase`. -/
structure PurchaseRecord where
  checkinId : String
  inventoryId : String
  itemName : String
  quantity : Int
  amount : Int
  paymentStatus : String
  createdAt : Int
deriving DecidableEq

/-- A `checkins` document (fields written by CheckIn.tsx), together with its
`payments` subcollection.  Display-only fields (guest details, room number,
AC type) are omitted. -/
structure Checkin where
  guestName : String
  rent : Int
  initialPayment : Int
  isCheckedOut : Bool
  checkedInAt : Int
  payments : List PaymentEntry
deriving DecidableEq

/-- The Firestore state touched by the shop-purchase flow: the `inventory`
and `checkins` collections (association lists keyed by document id) and the
flat `purchases` collection. -/
structure DB where
  inventory : List (String × InventoryItem)
  checkins : List (String × Checkin)
  purchases : List PurchaseRecord
deriving DecidableEq

/-- Look a document up by id, as Firestore resolves a `doc(db, coll, id)`
reference at read/update time. -/
def findDoc {α : Type} (k : String) : List (String × α) → Option α
  | [] => none
  | (k', v) :: rest => if k' = k then some v else findDoc k rest

/-- Apply an update function to the document stored under an id, leaving the
collection unchanged when the id is absent (absence instead fails the batch
commit, see `commitOk`). -/
def updateDoc {α : Type} (k : String) (f : α → α) : List (String × α) → List (String × α)
  | [] => []
  | (k', v) :: rest =>
      (if k' = k then (k', f v) else (k', v)) :: updateDoc k f rest

/-- Sum of `f` over a list, the shape of every `reduce((total, x) => total + f(x), 0)`
in the sources. -/
def sumBy {α : Type} (f : α → Int) (l : List α) : Int :=
  l.foldl (fun s x => s + f x) 0

/-- `totalAmount` as computed at the top of `processPurchase`:
`cartItems.reduce((total, item) => total + item.quantity * item.unitPrice, 0)`. -/
def totalAmountOf (cartItems : List CartItem) : Int :=
  cartItems.foldl (fun total item => total + item.quantity * item.unitPrice) 0

/-- The inventory writes of the batch: for each cart line,
`batch.update(inventoryRef, { quantity: increment(-item.quantity) })`.
The increment is unconditional; no floor check is performed. -/
def applyCartToInventory (inv : List (String × InventoryItem)) (cartItems : List CartItem) :
    List (String × InventoryItem) :=
  cartItems.foldl
    (fun acc item =>
      updateDoc item.inventoryId (fun it => { it with quantity := it.quantity - item.quantity }) acc)
    inv

/-- The `purchases` document `processPurchase` batches for one cart line. -/
def purchaseRecordOf (checkinId : String) (now : Int) (item : CartItem) : PurchaseRecord :=
  { checkinId := checkinId
    inventoryId := item.inventoryId
    itemName := item.itemName
    quantity := item.quantity
    amount := item.quantity * item.unitPrice
    paymentStatus := "pending"
    createdAt := now }

/-- The payment entry `processPurchase` batches into the checkin's `payments`
subcollection. -/
def shopPaymentEntry (totalAmount : Int) (itemCount : Nat) (now : Int) : PaymentEntry :=
  { amount := -totalAmount
    mode := "shop"
    type := "shop-purchase"
    timestamp := now
    description := some ("Shop purchase (" ++ toString itemCount ++ " items)") }

/-- The commit precondition of the write batch assembled by `processPurchase`:
every `batch.update` target must exist, i.e. every cart line's inventory
document and the checkin document.  (`batch.set` on the generated purchase and
payment documents always succeeds.) -/
def commitOk (db : DB) (checkinId : String) (cartItems : List CartItem) : Bool :=
  cartItems.all (fun item => (findDoc item.inventoryId db.inventory).isSome) &&
    (findDoc checkinId db.checkins).isSome

/-- The combined effect of the committed batch: inventory decrements, one new
purchase record per cart line, the checkin's `initialPayment` decremented by
`totalAmount`, and the shop-purchase payment entry appended. -/
def applyBatch (db : DB) (checkinId : String) (cartItems : List CartItem) (now : Int) : DB :=
  { inventory := applyCartToInventory db.inventory cartItems
    checkins :=
      updateDoc checkinId
        (fun c =>
          { c with
            initialPayment := c.initialPayment - totalAmountOf cartItems
            payments :=
              c.payments ++ [shopPaymentEntry (totalAmountOf cartItems) cartItems.length now] })
        db.checkins
    purchases := db.purchases ++ cartItems.map (purchaseRecordOf checkinId now) }

/-- The failure outcomes of `processPurchase`: the explicit
`throw new Error('Invalid purchase data')` raised before any write, and the
Firestore NOT_FOUND rejection of a batch whose `update` targets a missing
document. -/
inductive PurchaseError where
  | invalidPurchaseData
  | notFound
deriving DecidableEq

/-- `ShopPurchaseService.processPurchase`: reject when the checkin id is empty
or the cart has no lines; otherwise assemble the write batch and commit it
atomically — all, or on a rejected commit, none of the writes apply. -/
def processPurchase (db : DB) (checkinId : String) (cartItems : List CartItem) (now : Int) :
    Except PurchaseError DB :=
  if checkinId = "" ∨ cartItems = [] then
    Except.error PurchaseError.invalidPurchaseData
  else if commitOk db checkinId cartItems then
    Except.ok (applyBatch db checkinId cartItems now)
  else
    Except.error PurchaseError.notFound

/-- One externally triggered purchase operation: target stay, cart, time. -/
structure PurchaseRequest where
  checkinId : String
  cartItems : List CartItem
  now : Int
deriving DecidableEq

/-- The state a caller observes after one `processPurchase` call: the new
state on success, the unchanged state when the call throws (no batched write
is visible before `batch.commit`). -/
def runPurchase (db : DB) (r : PurchaseRequest) : DB :=
  match processPurchase db r.checkinId r.cartItems r.now with
  | Except.ok db' => db'
  | Except.error _ => db

/-- A sequence of purchase operations, applied in order. -/
def runPurchases (db : DB) (rs : List PurchaseRequest) : DB :=
  rs.foldl runPurchase db

/-- Sum of `PurchaseRecord.amount` over a stay's purchase records, the shape
of `getTotalShopPurchases` in BookedRooms.tsx. -/
def purchasesTotal (stayId : String) (db : DB) : Int :=
  sumBy (fun r => r.amount) (db.purchases.filter (fun r => r.checkinId == stayId))

/-- Sum of the absolute amounts of a stay's shop-purchase payment entries
(zero when the stay does not exist). -/
def shopOffsetTotal (stayId : String) (db : DB) : Int :=
  ((findDoc stayId db.checkins).map
    (fun c => sumBy (fun p => |p.amount|) (c.payments.filter (fun p => p.type == "shop-purchase")))).getD 0

/-- Total quantity a cart requests for one inventory id (cart lines for other
ids contribute zero). -/
def requestedQty (k : String) (cart : List CartItem) : Int :=
  sumBy (fun item => if item.inventoryId = k then item.quantity else 0) cart

/-- `addToCart` of Shop.tsx: refuse without a selected room; cap an existing
line at the inventory snapshot's quantity, otherwise bump it by one; a new
line starts at quantity 1 and snapshots the item's current unit price. -/
def addToCart (selectedRoom : String) (cartItems : List CartItem) (itemId : String)
    (item : InventoryItem) : List CartItem :=
  if selectedRoom = "" then cartItems
  else
    match cartItems.find? (fun ci => ci.inventoryId == itemId) with
    | some existingItem =>
        if existingItem.quantity ≥ item.quantity then cartItems
        else
          cartItems.map (fun ci =>
            if ci.inventoryId == itemId then { ci with quantity := ci.quantity + 1 } else ci)
    | none =>
        cartItems ++
          [{ inventoryId := itemId
             itemName := item.itemName
             quantity := 1
             unitPrice := item.unitPrice }]

/-- The customer record `fetchPaymentHistory` of BookedRooms.tsx receives
(fields of a `checkins` document read back). -/
structure Customer where
  guestName : String
  phoneNumber : String
  checkedInAt : Int
  checkedOutAt : Int
  rent : Int
  isCheckedOut : Bool
deriving DecidableEq

/-- The pure core of `fetchPaymentHistory` in BookedRooms.tsx: prepend a rent
entry, then the stored initial-payment entry — or, when the ledger has none, a
synthetic one of `customer.rent`, mode cash, dated at check-in — followed by
the remaining (non-initial) stored entries. -/
def fetchPaymentHistory (customer : Customer) (history : List PaymentEntry) :
    List PaymentEntry :=
  let rentEntry : PaymentEntry :=
    { amount := customer.rent
      mode := "n/a"
      type := "Rent (Check-in)"
      timestamp := customer.checkedInAt
      description := none }
  let advanceEntry : PaymentEntry :=
    (history.find? (fun p => p.type == "initial")).getD
      { amount := customer.rent
        mode := "cash"
        type := "initial"
        timestamp := customer.checkedInAt
        description := some ("Initial payment at check-in") }
  rentEntry :: advanceEntry :: history.filter (fun p => p.type != "initial")

/-- The output of the Pending Amount Calculator. -/
structure PendingBreakdown where
  baseRent : Int
  extensionsTotal : Int
  feesTotal : Int
  totalRentSoFar : Int
  totalPaid : Int
  shopPurchasesTotal : Int
  pendingAmount : Int
deriving DecidableEq

/-- Modelled from the spec: the Pending Amount Calculator of
`src/pages/houses/HousePage.tsx` (`fetchPaymentHistory` /
`calculatePendingAmount` there), whose source file is absent from the sources;
reconstructed from specification §4.4 and the code excerpt quoted in
HOUSE_PENDING_AMOUNT_FIX.md: extension and extra-fee totals are summed from
the entries, the base rent recovers the original rent by subtracting both from
the running-total `rent`, paid amounts count only cash/gpay entries of kind
initial/advance, shop purchases are summed from the purchase records, and the
pending amount is clamped at zero last. -/
def computePending (rent : Int) (entries : List PaymentEntry)
    (purchases : List PurchaseRecord) : PendingBreakdown :=
  let extensionsTotal := sumBy (fun p => p.amount) (entries.filter (fun p => p.type == "extension"))
  let feesTotal := sumBy (fun p => p.amount) (entries.filter (fun p => p.type == "extra-fee"))
  let baseRent := rent - extensionsTotal - feesTotal
  let totalRentSoFar := baseRent + extensionsTotal + feesTotal
  let totalPaid :=
    sumBy (fun p => p.amount)
      (entries.filter (fun p =>
        (p.mode == "cash" || p.mode == "gpay") && (p.type == "initial" || p.type == "advance")))
  let shopPurchasesTotal := sumBy (fun r => r.amount) purchases
  { baseRent := baseRent
    extensionsTotal := extensionsTotal
    feesTotal := feesTotal
    totalRentSoFar := totalRentSoFar
    totalPaid := totalPaid
    shopPurchasesTotal := shopPurchasesTotal
    pendingAmount := max 0 (totalRentSoFar + shopPurchasesTotal - totalPaid) }

/- Concrete states used by counterexamples and witnesses. -/

/-- The document id of the sample inventory item. -/
def soapId : String := "soap"

/-- The document id of the sample checkin. -/
def stay1 : String := "c1"

/-- A sample inventory item with one unit on hand. -/
def soapItem : InventoryItem :=
  { itemName := "Soap", category := "toiletries", quantity := 1, unitPrice := 20 }

/-- A sample open checkin with no stored payment entries. -/
def exCheckin : Checkin :=
  { guestName := "G", rent := 1000, initialPayment := 500, isCheckedOut := false,
    checkedInAt := 0, payments := [] }

/-- A database with one inventory item, one open stay, no purchases. -/
def exDB : DB :=
  { inventory := [(soapId, soapItem)], checkins := [(stay1, exCheckin)], purchases := [] }

/-- A cart requesting two units of an item with only one on hand. -/
def overCart : List CartItem :=
  [{ inventoryId := soapId, itemName := "Soap", quantity := 2, unitPrice := 20 }]

/-- A cart requesting one unit, within stock. -/
def okCart : List CartItem :=
  [{ inventoryId := soapId, itemName := "Soap", quantity := 1, unitPrice := 20 }]

/- Helper lemmas about the association-list and summation primitives. -/

theorem foldl_add_init {α : Type} (f : α → Int) (l : List α) (a : Int) :
    l.foldl (fun s x => s + f x) a = a + sumBy f l := by
  induction l generalizing a with
  | nil => simp [sumBy]
  | cons x xs ih =>
      simp only [List.foldl, sumBy] at ih ⊢
      rw [ih (a + f x), ih (0 + f x)]
      ring

theorem sumBy_cons {α : Type} (f : α → Int) (x : α) (l : List α) :
    sumBy f (x :: l) = f x + sumBy f l := by
  show List.foldl (fun s y => s + f y) (0 + f x) l = f x + sumBy f l
  rw [foldl_add_init]
  omega

theorem sumBy_append {α : Type} (f : α → Int) (l₁ l₂ : List α) :
    sumBy f (l₁ ++ l₂) = sumBy f l₁ + sumBy f l₂ := by
  simp only [sumBy, List.foldl_append]
  rw [foldl_add_init]
  rfl

theorem sumBy_map {α β : Type} (f : β → Int) (g : α → β) (l : List α) :
    sumBy f (l.map g) = sumBy (fun x => f (g x)) l := by
  simp [sumBy, List.foldl_map]

theorem sumBy_nonneg {α : Type} (f : α → Int) (l : List α)
    (h : ∀ x ∈ l, 0 ≤ f x) : 0 ≤ sumBy f l := by
  induction l with
  | nil => simp [sumBy]
  | cons x xs ih =>
      rw [sumBy_cons]
      have hx := h x (List.mem_cons_self x xs)
      have hxs := ih (fun y hy => h y (List.mem_cons_of_mem x hy))
      omega

theorem totalAmountOf_eq_sumBy (cart : List CartItem) :
    totalAmountOf cart = sumBy (fun item => item.quantity * item.unitPrice) cart := rfl

theorem findDoc_updateDoc {α : Type} (k j : String) (f : α → α) (l : List (String × α)) :
    findDoc k (updateDoc j f l) =
      if j = k then (findDoc k l).map f else findDoc k l := by
  induction l with
  | nil =>
      show (none : Option α) = if j = k then Option.map f none else none
      split <;> rfl
  | cons hd tl ih =>
      obtain ⟨k', v⟩ := hd
      by_cases hj : k' = j
      · subst hj
        have h1 : updateDoc k' f ((k', v) :: tl) = (k', f v) :: updateDoc k' f tl := by
          simp [updateDoc]
        rw [h1]
        by_cases hk : k' = k <;> simp [findDoc, hk, ih]
      · have h1 : updateDoc j f ((k', v) :: tl) = (k', v) :: updateDoc j f tl := by
          simp [updateDoc, hj]
        rw [h1]
        by_cases hk : k' = k
        · subst hk
          have hjk : ¬ j = k' := fun h => hj h.symm
          simp [findDoc, hjk]
        · simp [findDoc, hk, ih]

theorem requestedQty_cons (k : String) (c : CartItem) (cart : List CartItem) :
    requestedQty k (c :: cart) =
      (if c.inventoryId = k then c.quantity else 0) + requestedQty k cart := by
  simp [requestedQty, sumBy_cons]

theorem findDoc_applyCart (k : String) (cart : List CartItem)
    (inv : List (String × InventoryItem)) :
    findDoc k (applyCartToInventory inv cart) =
      (findDoc k inv).map (fun it => { it with quantity := it.quantity - requestedQty k cart }) := by
  induction cart generalizing inv with
  | nil =>
      show findDoc k inv
        = (findDoc k inv).map (fun it => { it with quantity := it.quantity - requestedQty k [] })
      cases findDoc k inv with
      | none => rfl
      | some it =>
          obtain ⟨n, cat, q, p⟩ := it
          show some _ = some _
          congr 1
          show (⟨n, cat, q, p⟩ : InventoryItem) = ⟨n, cat, q - requestedQty k [], p⟩
          simp [requestedQty, sumBy]
  | cons c rest ih =>
      have hstep :
          applyCartToInventory inv (c :: rest)
            = applyCartToInventory
                (updateDoc c.inventoryId
                  (fun it => { it with quantity := it.quantity - c.quantity }) inv) rest := rfl
      rw [hstep, ih, findDoc_updateDoc, requestedQty_cons]
      by_cases hc : c.inventoryId = k
      · rw [if_pos hc, if_pos hc, Option.map_map]
        cases findDoc k inv with
        | none => rfl
        | some it =>
            obtain ⟨n, cat, q, p⟩ := it
            show some _ = some _
            congr 1
            show (⟨n, cat, q - c.quantity - requestedQty k rest, p⟩ : InventoryItem)
              = ⟨n, cat, q - (c.quantity + requestedQty k rest), p⟩
            simp [sub_sub]
      · rw [if_neg hc, if_neg hc]
        cases findDoc k inv with
        | none => rfl
        | some it =>
            obtain ⟨n, cat, q, p⟩ := it
            show some _ = some _
            congr 1
            show (⟨n, cat, q - requestedQty k rest, p⟩ : InventoryItem)
              = ⟨n, cat, q - (0 + requestedQty k rest), p⟩
            simp

theorem processPurchase_ok_inv {db : DB} {id : String} {cart : List CartItem} {now : Int}
    {db' : DB} (h : processPurchase db id cart now = Except.ok db') :
    ¬ id = "" ∧ ¬ cart = [] ∧ commitOk db id cart = true ∧
      db' = applyBatch db id cart now := by
  unfold processPurchase at h
  split at h
  · cases h
  · split at h
    · cases h
      rename_i hvalid hcommit
      push_neg at hvalid
      exact ⟨hvalid.1, hvalid.2, hcommit, rfl⟩
    · cases h

theorem totalAmountOf_nonneg (cart : List CartItem)
    (h : ∀ l ∈ cart, 0 ≤ l.quantity ∧ 0 ≤ l.unitPrice) : 0 ≤ totalAmountOf cart := by
  rw [totalAmountOf_eq_sumBy]
  exact sumBy_nonneg _ _ (fun l hl => mul_nonneg (h l hl).1 (h l hl).2)

theorem list_all_congr {α : Type} (p q : α → Bool) (l : List α)
    (h : ∀ x ∈ l, p x = q x) : l.all p = l.all q := by
  induction l with
  | nil => rfl
  | cons x xs ih =>
      simp only [List.all_cons]
      rw [h x (List.mem_cons_self x xs), ih (fun y hy => h y (List.mem_cons_of_mem x hy))]

theorem filter_new_records (s id : String) (now : Int) (cart : List CartItem) :
    (cart.map (purchaseRecordOf id now)).filter (fun r => r.checkinId == s)
      = if id = s then cart.map (purchaseRecordOf id now) else [] := by
  induction cart with
  | nil => split <;> rfl
  | cons c rest ih =>
      by_cases hs : id = s
      · simp [purchaseRecordOf, List.filter, hs, ih]
      · have hbeq : (id == s) = false := by simp [hs]
        simp [purchaseRecordOf, List.filter, hs, hbeq, ih]

theorem purchasesTotal_applyBatch (s id : String) (cart : List CartItem) (now : Int) (db : DB) :
    purchasesTotal s (applyBatch db id cart now)
      = purchasesTotal s db + (if id = s then totalAmountOf cart else 0) := by
  unfold purchasesTotal applyBatch
  simp only
  rw [List.filter_append, sumBy_append, filter_new_records]
  by_cases hs : id = s
  · rw [if_pos hs, if_pos hs, sumBy_map]
    rw [totalAmountOf_eq_sumBy]
    rfl
  · rw [if_neg hs, if_neg hs]
    simp [sumBy]

theorem shopOffsetTotal_applyBatch (s id : String) (cart : List CartItem) (now : Int) (db : DB)
    (hsome : (findDoc id db.checkins).isSome = true)
    (hpos : 0 ≤ totalAmountOf cart) :
    shopOffsetTotal s (applyBatch db id cart now)
      = shopOffsetTotal s db + (if id = s then totalAmountOf cart else 0) := by
  unfold shopOffsetTotal applyBatch
  simp only
  rw [findDoc_updateDoc]
  by_cases hs : id = s
  · rw [if_pos hs, if_pos hs]
    rw [hs] at hsome
    obtain ⟨c, hcs⟩ := Option.isSome_iff_exists.mp hsome
    rw [hcs]
    simp only [Option.map_some', Option.getD_some]
    rw [List.filter_append, sumBy_append]
    have hkeep :
        ([shopPaymentEntry (totalAmountOf cart) cart.length now].filter
          (fun p => p.type == "shop-purchase"))
          = [shopPaymentEntry (totalAmountOf cart) cart.length now] := by
      simp [shopPaymentEntry, List.filter]
    rw [hkeep]
    have hone : sumBy (fun p => |p.amount|) [shopPaymentEntry (totalAmountOf cart) cart.length now]
        = totalAmountOf cart := by
      rw [sumBy_cons]
      show |(shopPaymentEntry (totalAmountOf cart) cart.length now).amount| + sumBy _ [] = _
      rw [show (shopPaymentEntry (totalAmountOf cart) cart.length now).amount
            = -(totalAmountOf cart) from rfl]
      rw [abs_neg, abs_of_nonneg hpos]
      show totalAmountOf cart + 0 = totalAmountOf cart
      omega
    rw [hone]
  · rw [if_neg hs, if_neg hs]
    omega

theorem conserved_step {db db' : DB} {id : String} {cart : List CartItem} {now : Int} (s : String)
    (h : processPurchase db id cart now = Except.ok db')
    (hn : ∀ l ∈ cart, 0 ≤ l.quantity ∧ 0 ≤ l.unitPrice)
    (hc : purchasesTotal s db = shopOffsetTotal s db) :
    purchasesTotal s db' = shopOffsetTotal s db' := by
  obtain ⟨h1, h2, h3, rfl⟩ := processPurchase_ok_inv h
  have hsome : (findDoc id db.checkins).isSome = true := ((Bool.and_eq_true _ _).mp h3).2
  rw [purchasesTotal_applyBatch, shopOffsetTotal_applyBatch s id cart now db hsome
    (totalAmountOf_nonneg cart hn), hc]

/- Claim theorems. -/

/-- C8: a purchase with a cart of zero lines is rejected by the validation at
the top of `processPurchase` — the spec's `EmptyCart` failure, raised in the
code as the `Invalid purchase data` error — before any write is assembled or
committed, so the observed state after the call is exactly the state before:
no inventory quantity, purchase record, payment entry or checkin field
changes. -/
theorem processPurchase_empty_cart (db : DB) (id : String) (now : Int) :
    processPurchase db id [] now = Except.error PurchaseError.invalidPurchaseData ∧
      runPurchase db ⟨id, [], now⟩ = db := by
  have h1 : processPurchase db id [] now = Except.error PurchaseError.invalidPurchaseData := by
    unfold processPurchase
    rw [if_pos (Or.inr rfl)]
  exact ⟨h1, by simp [runPurchase, h1]⟩

/-- C2: `processPurchase` is atomic all-or-nothing.  Every write is deferred
into a single Firestore `WriteBatch` committed once, and the validation error
is thrown before the batch is assembled, so on every failing invocation the
inventory collection, the purchases collection and every checkin (including
its payments ledger) are exactly as they were before the call. -/
theorem processPurchase_all_or_nothing (db : DB) (id : String) (cart : List CartItem)
    (now : Int) (e : PurchaseError)
    (h : processPurchase db id cart now = Except.error e) :
    (runPurchase db ⟨id, cart, now⟩).inventory = db.inventory ∧
    (runPurchase db ⟨id, cart, now⟩).purchases = db.purchases ∧
    (runPurchase db ⟨id, cart, now⟩).checkins = db.checkins := by
  have hrun : runPurchase db ⟨id, cart, now⟩ = db := by
    simp [runPurchase, h]
  rw [hrun]
  exact ⟨rfl, rfl, rfl⟩

theorem processPurchase_all_or_nothing_witness :
    (runPurchase exDB ⟨stay1, [], 7⟩).inventory = exDB.inventory ∧
    (runPurchase exDB ⟨stay1, [], 7⟩).purchases = exDB.purchases ∧
    (runPurchase exDB ⟨stay1, [], 7⟩).checkins = exDB.checkins :=
  processPurchase_all_or_nothing exDB stay1 [] 7 PurchaseError.invalidPurchaseData rfl

/-- C10: every successful `processPurchase` also mutates the checkin document
itself: `batch.update(checkinRef, { initialPayment: increment(-totalAmount) })`
decrements the stay's stored `initialPayment` by the cart's total amount. -/
theorem processPurchase_decrements_initialPayment (db : DB) (id : String)
    (cart : List CartItem) (now : Int) (db' : DB) (c : Checkin)
    (h : processPurchase db id cart now = Except.ok db')
    (hc : findDoc id db.checkins = some c) :
    (findDoc id db'.checkins).map Checkin.initialPayment
      = some (c.initialPayment - totalAmountOf cart) := by
  obtain ⟨h1, h2, h3, rfl⟩ := processPurchase_ok_inv h
  have hch : (applyBatch db id cart now).checkins
      = updateDoc id
          (fun c =>
            { c with
              initialPayment := c.initialPayment - totalAmountOf cart
              payments :=
                c.payments ++ [shopPaymentEntry (totalAmountOf cart) cart.length now] })
          db.checkins := rfl
  rw [hch, findDoc_updateDoc, if_pos rfl, hc]
  rfl

theorem processPurchase_decrements_initialPayment_witness :
    (findDoc stay1 (applyBatch exDB stay1 okCart 7).checkins).map Checkin.initialPayment
      = some (exCheckin.initialPayment - totalAmountOf okCart) :=
  processPurchase_decrements_initialPayment exDB stay1 okCart 7
    (applyBatch exDB stay1 okCart 7) exCheckin rfl rfl

/-- C5: a successful purchase appends exactly one payment entry to the target
stay — amount `-totalAmount` (the negated sum of quantity × cart unit price),
kind `shop-purchase` (the spec's shop-purchase-offset), mode `shop` (the
spec's not-applicable), description summarizing the item count — and creates
exactly one purchase record per cart line with amount quantity × unit price
and payment status pending. -/
theorem processPurchase_writes (db : DB) (id : String) (cart : List CartItem) (now : Int)
    (db' : DB) (c : Checkin)
    (h : processPurchase db id cart now = Except.ok db')
    (hc : findDoc id db.checkins = some c) :
    db'.purchases = db.purchases ++ cart.map (fun item =>
        { checkinId := id
          inventoryId := item.inventoryId
          itemName := item.itemName
          quantity := item.quantity
          amount := item.quantity * item.unitPrice
          paymentStatus := "pending"
          createdAt := now }) ∧
    findDoc id db'.checkins = some { c with
        initialPayment := c.initialPayment - totalAmountOf cart
        payments := c.payments ++
          [{ amount := -(totalAmountOf cart)
             mode := "shop"
             type := "shop-purchase"
             timestamp := now
             description := some ("Shop purchase (" ++ toString cart.length ++ " items)") }] } := by
  obtain ⟨h1, h2, h3, rfl⟩ := processPurchase_ok_inv h
  constructor
  · rfl
  · have hch : (applyBatch db id cart now).checkins
        = updateDoc id
            (fun c =>
              { c with
                initialPayment := c.initialPayment - totalAmountOf cart
                payments :=
                  c.payments ++ [shopPaymentEntry (totalAmountOf cart) cart.length now] })
            db.checkins := rfl
    rw [hch, findDoc_updateDoc, if_pos rfl, hc]
    rfl

theorem processPurchase_writes_witness :
    (applyBatch exDB stay1 okCart 7).purchases = exDB.purchases ++ okCart.map (fun item =>
        { checkinId := stay1
          inventoryId := item.inventoryId
          itemName := item.itemName
          quantity := item.quantity
          amount := item.quantity * item.unitPrice
          paymentStatus := "pending"
          createdAt := 7 }) ∧
    findDoc stay1 (applyBatch exDB stay1 okCart 7).checkins = some { exCheckin with
        initialPayment := exCheckin.initialPayment - totalAmountOf okCart
        payments := exCheckin.payments ++
          [{ amount := -(totalAmountOf okCart)
             mode := "shop"
             type := "shop-purchase"
             timestamp := 7
             description := some ("Shop purchase (" ++ toString okCart.length ++ " items)") }] } :=
  processPurchase_writes exDB stay1 okCart 7 (applyBatch exDB stay1 okCart 7) exCheckin rfl rfl

/-- C1 counterexample: the claim that a cart line requesting more than the
on-hand quantity makes `processPurchase` fail with an insufficient-stock
error, with no decrement, is false.  With one unit of stock and a cart
requesting two, the purchase succeeds and the stored quantity is driven to
−1: the code performs no stock re-check at commit time and no
`InsufficientStock` failure exists anywhere in it. -/
theorem processPurchase_oversell_cex :
    soapItem.quantity = 1 ∧
    overCart.map (fun l => l.quantity) = [2] ∧
    (processPurchase exDB stay1 overCart 7).isOk = true ∧
    (processPurchase exDB stay1 overCart 7).toOption.map
        (fun d => (findDoc soapId d.inventory).map (fun it => it.quantity))
      = some (some (-1)) :=
  ⟨rfl, rfl, rfl, rfl⟩

/-- C1 (amended): `processPurchase` performs no stock check at commit time:
whenever the checkin id is non-empty, the cart is non-empty and every
referenced document exists, the purchase succeeds and each item's quantity is
decremented by the requested total unconditionally — even below zero.  The
only stock guard in the flow is `addToCart`'s client-side cap against the
inventory snapshot loaded at page mount. -/
theorem processPurchase_no_stock_check (db : DB) (id : String) (cart : List CartItem)
    (now : Int) (k : String)
    (h1 : ¬ id = "") (h2 : ¬ cart = []) (h3 : commitOk db id cart = true) :
    (processPurchase db id cart now).isOk = true ∧
    (processPurchase db id cart now).toOption.map (fun d => findDoc k d.inventory)
      = some ((findDoc k db.inventory).map
          (fun it => { it with quantity := it.quantity - requestedQty k cart })) := by
  have hok : processPurchase db id cart now = Except.ok (applyBatch db id cart now) := by
    unfold processPurchase
    rw [if_neg (not_or.mpr ⟨h1, h2⟩), if_pos h3]
  rw [hok]
  refine ⟨rfl, ?_⟩
  show some (findDoc k (applyBatch db id cart now).inventory) = _
  have hin : (applyBatch db id cart now).inventory
      = applyCartToInventory db.inventory cart := rfl
  rw [hin, findDoc_applyCart]

theorem processPurchase_no_stock_check_witness :
    (processPurchase exDB stay1 overCart 7).isOk = true ∧
    (processPurchase exDB stay1 overCart 7).toOption.map (fun d => findDoc soapId d.inventory)
      = some ((findDoc soapId exDB.inventory).map
          (fun it => { it with quantity := it.quantity - requestedQty soapId overCart })) :=
  processPurchase_no_stock_check exDB stay1 overCart 7 soapId (by decide) (by decide) (by decide)

/-- A checked-out copy of the sample stay. -/
def closedCheckin : Checkin := { exCheckin with isCheckedOut := true }

/-- A database whose only stay is already checked out. -/
def closedDB : DB :=
  { inventory := [(soapId, soapItem)], checkins := [(stay1, closedCheckin)], purchases := [] }

/-- A database with no checkin document at all. -/
def noStayDB : DB :=
  { inventory := [(soapId, soapItem)], checkins := [], purchases := [] }

/-- C7 counterexample: the claim that a purchase against a closed
(checked-out) stay fails is false: `processPurchase` never reads
`isCheckedOut`, and a purchase targeting a checked-out stay succeeds. -/
theorem processPurchase_closed_stay_cex :
    closedCheckin.isCheckedOut = true ∧
    (processPurchase closedDB stay1 okCart 7).isOk = true :=
  ⟨rfl, rfl⟩

/-- C7 (amended): when the target stay document does not exist, the batch
commit is rejected (the spec's `UnknownStay`) and no write applies — the
observed state is unchanged.  A closed stay, however, is not rejected:
`processPurchase` performs no open-stay check; the open-stay restriction
lives only in the Shop page, whose room selector lists only checkins with
`isCheckedOut == false`. -/
theorem processPurchase_unknown_stay (db : DB) (id : String) (cart : List CartItem)
    (now : Int) (h : findDoc id db.checkins = none) :
    (processPurchase db id cart now).isOk = false ∧
    runPurchase db ⟨id, cart, now⟩ = db := by
  have hco : commitOk db id cart = false := by
    unfold commitOk
    rw [h]
    simp
  constructor
  · unfold processPurchase
    split
    · rfl
    · rw [hco]
      rfl
  · cases hpp : processPurchase db id cart now with
    | ok db2 =>
        obtain ⟨-, -, h3, -⟩ := processPurchase_ok_inv hpp
        rw [hco] at h3
        cases h3
    | error e => simp [runPurchase, hpp]

theorem processPurchase_unknown_stay_witness :
    (processPurchase noStayDB stay1 okCart 7).isOk = false ∧
    runPurchase noStayDB ⟨stay1, okCart, 7⟩ = noStayDB :=
  processPurchase_unknown_stay noStayDB stay1 okCart 7 rfl

/-- The sample item after an external price change to 70. -/
def repricedSoap : InventoryItem :=
  { itemName := "Soap", category := "toiletries", quantity := 1, unitPrice := 70 }

/-- A database in which the item's stored price is 70 while the cart still
carries the price 50 snapshotted when the line was added. -/
def repricedDB : DB :=
  { inventory := [(soapId, repricedSoap)], checkins := [(stay1, exCheckin)], purchases := [] }

/-- A cart line holding the stale snapshotted price 50. -/
def staleCart : List CartItem :=
  [{ inventoryId := soapId, itemName := "Soap", quantity := 1, unitPrice := 50 }]

/-- C6 counterexample: the claim that the committed amount reflects unit
prices read from the inventory store at commit time is false.  With the
stored price at 70 and the cart line still carrying the snapshotted price 50,
the committed ledger entry is −50, not −(70 × 1). -/
theorem processPurchase_stale_price_cex :
    (findDoc soapId repricedDB.inventory).map (fun it => it.unitPrice) = some 70 ∧
    (processPurchase repricedDB stay1 staleCart 7).toOption.map
        (fun d => (findDoc stay1 d.checkins).map (fun c => c.payments.map (fun p => p.amount)))
      = some (some [-50]) ∧
    ¬ ((-50 : Int) = -(70 * 1)) :=
  ⟨rfl, rfl, by decide⟩

/-- C6 (amended): `totalAmount` is `Σ quantity × unitPrice` over the cart
lines exactly as passed to `processPurchase`, each `unitPrice` being the
snapshot `addToCart` captured when the line was first added; `processPurchase`
never reads unit prices from the inventory store — its committed purchase
records and ledger entries are identical across any two databases that agree
on everything except inventory document contents. -/
theorem processPurchase_ignores_inventory_prices (db₁ db₂ : DB) (id : String)
    (cart : List CartItem) (now : Int)
    (hinv : ∀ k, (findDoc k db₁.inventory).isSome = (findDoc k db₂.inventory).isSome)
    (hchk : db₁.checkins = db₂.checkins) (hpur : db₁.purchases = db₂.purchases) :
    (processPurchase db₁ id cart now).map (fun d => (d.checkins, d.purchases))
      = (processPurchase db₂ id cart now).map (fun d => (d.checkins, d.purchases)) := by
  have hco : commitOk db₁ id cart = commitOk db₂ id cart := by
    unfold commitOk
    rw [hchk, list_all_congr _ _ cart (fun item _ => hinv item.inventoryId)]
  unfold processPurchase
  by_cases hval : id = "" ∨ cart = []
  · rw [if_pos hval, if_pos hval]
  · rw [if_neg hval, if_neg hval, hco]
    by_cases hc2 : commitOk db₂ id cart = true
    · rw [if_pos hc2, if_pos hc2]
      show Except.ok _ = Except.ok _
      congr 1
      unfold applyBatch
      simp [hchk, hpur]
    · rw [if_neg hc2, if_neg hc2]

theorem processPurchase_ignores_inventory_prices_witness :
    (processPurchase exDB stay1 staleCart 7).map (fun d => (d.checkins, d.purchases))
      = (processPurchase repricedDB stay1 staleCart 7).map (fun d => (d.checkins, d.purchases)) :=
  processPurchase_ignores_inventory_prices exDB repricedDB stay1 staleCart 7
    (fun k => by by_cases h : soapId = k <;> simp [exDB, repricedDB, findDoc, h])
    rfl rfl

/-- C3: conservation.  Starting from a state in which a stay's purchase-record
total equals the absolute total of its shop-purchase ledger entries, any
sequence of purchase operations (successful or failed) preserves the
equality: each committed batch adds purchase records summing to `totalAmount`
and one ledger entry of `−totalAmount`, and a failed call adds nothing.
Cart lines carry non-negative quantities and prices, as produced by
`addToCart` from the stock-entry forms. -/
theorem purchase_conservation (db : DB) (rs : List PurchaseRequest) (s : String)
    (h0 : purchasesTotal s db = shopOffsetTotal s db)
    (hn : ∀ r ∈ rs, ∀ l ∈ r.cartItems, 0 ≤ l.quantity ∧ 0 ≤ l.unitPrice) :
    purchasesTotal s (runPurchases db rs) = shopOffsetTotal s (runPurchases db rs) := by
  induction rs generalizing db with
  | nil => exact h0
  | cons r rest ih =>
      show purchasesTotal s (runPurchases (runPurchase db r) rest) = _
      apply ih
      · unfold runPurchase
        cases hpp : processPurchase db r.checkinId r.cartItems r.now with
        | ok db2 => exact conserved_step s hpp (hn r (List.mem_cons_self r rest)) h0
        | error e => exact h0
      · exact fun r' hr' => hn r' (List.mem_cons_of_mem r hr')

theorem purchase_conservation_witness :
    purchasesTotal stay1 (runPurchases exDB [⟨stay1, okCart, 7⟩])
      = shopOffsetTotal stay1 (runPurchases exDB [⟨stay1, okCart, 7⟩]) :=
  purchase_conservation exDB [⟨stay1, okCart, 7⟩] stay1 rfl (by decide)

/-- The sample extension ledger entry of the specification's no-double-count
scenario. -/
def extensionEntry : PaymentEntry :=
  { amount := 200, mode := "n/a", type := "extension", timestamp := 1, description := none }

/-- The sample extra-fee ledger entry of the same scenario. -/
def extraFeeEntry : PaymentEntry :=
  { amount := 50, mode := "n/a", type := "extra-fee", timestamp := 2, description := none }

/-- C4: the Pending Amount Calculator recovers the base rent as
`stay.rent − extensionsTotal − feesTotal`, so its total-rent figure always
equals `stay.rent` (extensions and fees are never counted twice); in
particular, rent 1000 with one extension of 200 and one extra fee of 50
yields base rent 750 and total rent 1000, never 1200. -/
theorem computePending_no_double_count :
    (∀ (rent : Int) (entries : List PaymentEntry) (ps : List PurchaseRecord),
        (computePending rent entries ps).baseRent
          = rent
              - sumBy (fun p => p.amount) (entries.filter (fun p => p.type == "extension"))
              - sumBy (fun p => p.amount) (entries.filter (fun p => p.type == "extra-fee")) ∧
        (computePending rent entries ps).totalRentSoFar = rent) ∧
    (computePending 1000 [extensionEntry, extraFeeEntry] []).baseRent = 750 ∧
    (computePending 1000 [extensionEntry, extraFeeEntry] []).totalRentSoFar = 1000 := by
  refine ⟨fun rent entries ps => ⟨rfl, ?_⟩, by decide, by decide⟩
  simp only [computePending]
  omega

/-- C9: building a stay's transaction history, `fetchPaymentHistory` places
the ledger's initial-payment entry right after the rent entry; when the ledger
has no entry of kind initial, it synthesizes one whose amount is `stay.rent`,
whose mode defaults to cash and whose timestamp is the stay's check-in time,
and when an initial entry exists it is used unchanged. -/
theorem fetchPaymentHistory_initial_fallback (customer : Customer)
    (history : List PaymentEntry) :
    (history.find? (fun p => p.type == "initial") = none →
      fetchPaymentHistory customer history
        = { amount := customer.rent, mode := "n/a", type := "Rent (Check-in)",
            timestamp := customer.checkedInAt, description := none }
          :: { amount := customer.rent, mode := "cash", type := "initial",
               timestamp := customer.checkedInAt,
               description := some ("Initial payment at check-in") }
          :: history.filter (fun p => p.type != "initial")) ∧
    (∀ p0, history.find? (fun p => p.type == "initial") = some p0 →
      p0.type = "initial" ∧
      fetchPaymentHistory customer history
        = { amount := customer.rent, mode := "n/a", type := "Rent (Check-in)",
            timestamp := customer.checkedInAt, description := none }
          :: p0 :: history.filter (fun p => p.type != "initial")) := by
  constructor
  · intro h
    simp only [fetchPaymentHistory]
    rw [h]
    rfl
  · intro p0 h
    constructor
    · have hp := List.find?_some h
      simpa using hp
    · simp only [fetchPaymentHistory]
      rw [h]
      rfl

/-- A sample checked-out customer with no stored ledger entries. -/
def exCustomer : Customer :=
  { guestName := "G", phoneNumber := "1", checkedInAt := 0, checkedOutAt := 5,
    rent := 1000, isCheckedOut := true }

theorem fetchPaymentHistory_initial_fallback_witness :
    fetchPaymentHistory exCustomer []
      = { amount := exCustomer.rent, mode := "n/a", type := "Rent (Check-in)",
          timestamp := exCustomer.checkedInAt, description := none }
        :: { amount := exCustomer.rent, mode := "cash", type := "initial",
             timestamp := exCustomer.checkedInAt,
             description := some ("Initial payment at check-in") }
        :: ([] : List PaymentEntry).filter (fun p => p.type != "initial") :=
  (fetchPaymentHistory_initial_fallback exCustomer []).1 rfl
